import Mathlib

/-!
Verification of the CraftLauncher core (version resolution, download
orchestration, launch parameter building) against its specification.
The JavaScript sources are embedded shallowly: pure functions become Lean
functions, `Math.random()` becomes an explicit stream of rational samples,
wall-clock reads and process identifiers become explicit parameters, and
thrown exceptions become `Except` values.
-/

namespace CraftLauncher

/-! ## Utils (src/js/utils.js) -/

/-- JavaScript ToInt32: reduce an integer modulo 2^32 into [-2^31, 2^31).
Embeds the `hash = hash & hash` truncation and the `<< 5` shift domain. -/
def toInt32 (n : Int) : Int :=
  let m := n % 4294967296
  if m < 2147483648 then m else m - 4294967296

/-- One loop iteration of `Utils.hashString`:
`hash = ((hash << 5) - hash) + char; hash = hash & hash`. -/
def hashStep (h : Int) (c : Char) : Int :=
  toInt32 (toInt32 (h * 32) - h + (c.toNat : Int))

/-- `Utils.hashString` (src/js/utils.js lines 274-283): accumulate the 32-bit
hash over the character codes, return `Math.abs` of the result (0 for ""). -/
def hashString (s : String) : Int :=
  if s.length = 0 then 0
  else ((s.data.foldl hashStep 0).natAbs : Int)

/-- JavaScript `Number.prototype.toString(16)` for a non-negative integer. -/
def natToHex (n : Nat) : String :=
  String.mk (Nat.toDigits 16 n)

/-- JavaScript `String.prototype.replace` with a string pattern on lists of
characters: replace only the first occurrence of `pat` (the empty pattern
matches at the start, as in JavaScript). -/
def jsReplaceList (pat rep : List Char) : List Char → List Char
  | [] => if pat.isPrefixOf ([] : List Char) then rep else []
  | c :: rest =>
    if pat.isPrefixOf (c :: rest) then rep ++ (c :: rest).drop pat.length
    else c :: jsReplaceList pat rep rest

/-- JavaScript `String.prototype.replace(pat, rep)` on strings: first
occurrence only. The replacement is inserted literally; none of the
launcher's bound values contain dollar-escape patterns, so this matches
the JavaScript semantics on every input the launcher produces. -/
def jsReplace (s pat rep : String) : String :=
  String.mk (jsReplaceList pat.data rep.data s.data)

/-- JavaScript `String.prototype.split(sep)` for a single-character
separator, on lists of characters: split at every separator, keeping empty
groups ("" splits to [""], "a  b" to ["a", "", "b"]). -/
def splitCharList (sep : Char) : List Char → List (List Char)
  | [] => [[]]
  | c :: rest =>
    match splitCharList sep rest with
    | [] => [[]]
    | grp :: gs => if c = sep then [] :: grp :: gs else (c :: grp) :: gs

/-- JavaScript `String.prototype.split(sep)` on strings (single-character
separator, which is how the launcher calls it: space and colon). -/
def jsSplit (s : String) (sep : Char) : List String :=
  (splitCharList sep s.data).map String.mk

/-- JavaScript `String.prototype.trim`: drop leading and trailing
whitespace. -/
def jsTrim (s : String) : String :=
  String.mk (((s.data.dropWhile Char.isWhitespace).reverse.dropWhile
    Char.isWhitespace).reverse)

/-- `Utils.retry` outcome: the value returned or error thrown (none when the
loop body never runs, i.e. `maxAttempts = 0` returns `undefined`), the number
of attempts made, and the backoff delays awaited between attempts. -/
structure RetryResult where
  result : Option (Except String Nat)
  attempts : Nat
  delays : List Nat
  deriving Repr

/-- The `for (attempt = 1; attempt <= maxAttempts; attempt++)` loop of
`Utils.retry` (src/js/utils.js lines 349-366). `results i` is the outcome of
the i-th call of `fn`; `fuel` counts the iterations the loop condition still
allows, so the inner match mirrors the source exactly: return on success,
rethrow on the final attempt, otherwise wait `baseDelay * 2^(attempt-1)`. -/
def retryLoop (results : Nat → Except String Nat) (maxAttempts base : Nat) :
    Nat → Nat → RetryResult
  | _, 0 => ⟨none, 0, []⟩
  | attempt, fuel + 1 =>
    match results attempt with
    | .ok a => ⟨some (.ok a), 1, []⟩
    | .error e =>
      if attempt = maxAttempts then ⟨some (.error e), 1, []⟩
      else
        let r := retryLoop results maxAttempts base (attempt + 1) fuel
        ⟨r.result, r.attempts + 1, base * 2 ^ (attempt - 1) :: r.delays⟩

/-- `Utils.retry(fn, maxAttempts, baseDelay)`: run the loop from attempt 1;
the loop condition allows exactly `maxAttempts` iterations. -/
def retryRun (results : Nat → Except String Nat) (maxAttempts base : Nat) :
    RetryResult :=
  retryLoop results maxAttempts base 1 maxAttempts

/-! ## Version catalog (src/js/versions.js) -/

/-- One entry of the mock version manifest. -/
structure VersionInfo where
  id : String
  vtype : String
  url : String
  time : String
  releaseTime : String
  sha1 : String
  complianceLevel : Nat
  deriving DecidableEq, Repr

/-- `VersionManager.getMockVersions` (src/js/versions.js lines 41-134). -/
def getMockVersions : List VersionInfo :=
  [ ⟨"1.21.1", "release", "https://piston-meta.mojang.com/v1/packages/1.21.1.json",
      "2024-08-08T11:22:58+00:00", "2024-08-08T11:10:48+00:00", "abc123", 1⟩,
    ⟨"1.21", "release", "https://piston-meta.mojang.com/v1/packages/1.21.json",
      "2024-06-13T08:24:05+00:00", "2024-06-13T08:24:05+00:00", "def456", 1⟩,
    ⟨"24w21b", "snapshot", "https://piston-meta.mojang.com/v1/packages/24w21b.json",
      "2024-05-24T12:15:32+00:00", "2024-05-24T12:15:32+00:00", "ghi789", 1⟩,
    ⟨"1.20.6", "release", "https://piston-meta.mojang.com/v1/packages/1.20.6.json",
      "2024-04-29T14:11:07+00:00", "2024-04-29T14:11:07+00:00", "jkl012", 1⟩,
    ⟨"1.20.4", "release", "https://piston-meta.mojang.com/v1/packages/1.20.4.json",
      "2023-12-07T12:56:18+00:00", "2023-12-07T12:56:18+00:00", "mno345", 1⟩,
    ⟨"1.19.4", "release", "https://piston-meta.mojang.com/v1/packages/1.19.4.json",
      "2023-03-14T12:56:18+00:00", "2023-03-14T12:56:18+00:00", "pqr678", 1⟩,
    ⟨"1.18.2", "release", "https://piston-meta.mojang.com/v1/packages/1.18.2.json",
      "2022-02-28T10:21:28+00:00", "2022-02-28T10:21:28+00:00", "stu901", 1⟩,
    ⟨"1.16.5", "release", "https://piston-meta.mojang.com/v1/packages/1.16.5.json",
      "2021-01-15T16:05:32+00:00", "2021-01-15T16:05:32+00:00", "vwx234", 0⟩,
    ⟨"1.12.2", "release", "https://piston-meta.mojang.com/v1/packages/1.12.2.json",
      "2017-09-18T08:39:46+00:00", "2017-09-18T08:39:46+00:00", "yz0567", 0⟩,
    ⟨"1.8.9", "release", "https://piston-meta.mojang.com/v1/packages/1.8.9.json",
      "2015-12-09T09:24:23+00:00", "2015-12-09T09:24:23+00:00", "abc890", 0⟩ ]

/-- `VersionManager.getVersionById`: find by id in the loaded manifest. -/
def getVersionById (id : String) : Option VersionInfo :=
  getMockVersions.find? (fun v => v.id = id)

/-- `library.downloads.artifact` of a mock library. -/
structure LibraryArtifact where
  path : String
  sha1 : String
  size : Int
  url : String
  deriving DecidableEq, Repr

/-- One library entry as produced by `getMockLibraries`; the `artifact` is
optional because consumers guard on `lib.downloads && lib.downloads.artifact`. -/
structure MockLibrary where
  name : String
  artifact : Option LibraryArtifact
  deriving DecidableEq, Repr

/-- The `baseLibraries` array of `getMockLibraries`. -/
def baseLibraries : List String :=
  [ "com.mojang:logging:1.0.0",
    "com.mojang:blocklist:1.0.10",
    "com.mojang:datafixerupper:6.0.8",
    "com.google.guava:guava:32.1.2-jre",
    "commons-io:commons-io:2.11.0",
    "commons-codec:commons-codec:1.15",
    "net.java.dev.jna:jna:5.12.1",
    "net.java.dev.jna:jna-platform:5.12.1",
    "org.lwjgl:lwjgl:3.3.1",
    "org.lwjgl:lwjgl-jemalloc:3.3.1",
    "org.lwjgl:lwjgl-openal:3.3.1",
    "org.lwjgl:lwjgl-opengl:3.3.1",
    "org.lwjgl:lwjgl-glfw:3.3.1",
    "org.lwjgl:lwjgl-stb:3.3.1" ]

/-- `lib.replace(/:/g, '/')`: global replacement of colons by slashes. -/
def slashed (lib : String) : String :=
  lib.map (fun c => if c = ':' then '/' else c)

/-- `VersionManager.getMockLibraries` (src/js/versions.js lines 213-242).
`rand i` is the `Math.random()` sample drawn for the i-th library, so the
artifact size is `Math.floor(Math.random() * 1000000) + 50000`. -/
def getMockLibraries (versionId : String) (rand : Nat → ℚ) : List MockLibrary :=
  baseLibraries.enum.map fun p =>
    { name := p.2
      artifact := some
        { path := slashed p.2 ++ ".jar"
          sha1 := natToHex (hashString (p.2 ++ versionId)).toNat
          size := ⌊rand p.1 * 1000000⌋ + 50000
          url := "https://libraries.minecraft.net/" ++ slashed p.2 ++ ".jar" } }

/-- `VersionManager.getVersionSize` (mock client jar sizes). -/
def getVersionSize (versionId : String) : Int :=
  if versionId = "1.21.1" then 25678901
  else if versionId = "1.21" then 25456789
  else if versionId = "1.20.6" then 24123456
  else if versionId = "1.20.4" then 23987654
  else if versionId = "1.19.4" then 22345678
  else if versionId = "1.18.2" then 21098765
  else if versionId = "1.16.5" then 18765432
  else if versionId = "1.12.2" then 15432109
  else if versionId = "1.8.9" then 12345678
  else 20000000

/-- `VersionManager.getAssetIndex`. -/
def getAssetIndex (versionId : String) : String :=
  if versionId.startsWith ("1.21") then "8"
  else if versionId.startsWith ("1.20") then "7"
  else if versionId.startsWith ("1.19") then "6"
  else if versionId.startsWith ("1.18") then "5"
  else if versionId.startsWith ("1.16") then "4"
  else if versionId.startsWith ("1.12") then "1.12"
  else if versionId.startsWith ("1.8") then "1.8"
  else "legacy"

/-- `VersionManager.getJavaVersion`. -/
def getJavaVersion (versionId : String) : String :=
  if versionId.startsWith ("1.21") || versionId.startsWith ("1.20") then "java-runtime-delta"
  else if versionId.startsWith ("1.19") || versionId.startsWith ("1.18") then "java-runtime-beta"
  else if versionId.startsWith ("1.17") || versionId.startsWith ("1.16") then "java-runtime-alpha"
  else "jre-legacy"

/-- `VersionManager.getJavaMajorVersion`. -/
def getJavaMajorVersion (versionId : String) : Nat :=
  if versionId.startsWith ("1.21") || versionId.startsWith ("1.20") then 21
  else if versionId.startsWith ("1.19") || versionId.startsWith ("1.18")
       || versionId.startsWith ("1.17") then 17
  else if versionId.startsWith ("1.16") then 8
  else 8

/-- `versionDetails.downloads.client`. -/
structure ClientDownload where
  sha1 : String
  size : Int
  url : String
  deriving DecidableEq, Repr

/-- `versionDetails.assetIndex`. -/
structure AssetIndexInfo where
  id : String
  sha1 : String
  size : Int
  totalSize : Int
  url : String
  deriving DecidableEq, Repr

/-- `versionDetails.javaVersion`. -/
structure JavaVersionInfo where
  component : String
  majorVersion : Nat
  deriving DecidableEq, Repr

/-- The record returned by `VersionManager.getVersionDetails`. -/
structure VersionDetails where
  id : String
  vtype : String
  mainClass : String
  minecraftArguments : String
  libraries : List MockLibrary
  client : ClientDownload
  assetIndex : AssetIndexInfo
  javaVersion : JavaVersionInfo
  deriving DecidableEq, Repr

/-- `VersionManager.getVersionDetails` (src/js/versions.js lines 177-210):
throws when the version is unknown, otherwise assembles the mock details.
`rand` feeds the `Math.random()` samples used for library sizes. -/
def getVersionDetails (versionId : String) (rand : Nat → ℚ) :
    Except String VersionDetails :=
  match getVersionById versionId with
  | none => .error ("Version " ++ versionId ++ " not found")
  | some v => .ok
      { id := v.id
        vtype := v.vtype
        mainClass := "net.minecraft.client.main.Main"
        minecraftArguments :=
          "--username $\x7bauth_player_name\x7d --version $\x7bversion_name\x7d --gameDir $\x7bgame_directory\x7d --assetsDir $\x7bassets_root\x7d --assetIndex $\x7bassets_index_name\x7d --uuid $\x7bauth_uuid\x7d --accessToken $\x7bauth_access_token\x7d --userType $\x7buser_type\x7d --versionType $\x7bversion_type\x7d"
        libraries := getMockLibraries v.id rand
        client :=
          { sha1 := v.sha1
            size := getVersionSize v.id
            url := "https://piston-data.mojang.com/v1/objects/" ++ v.sha1 ++ "/client.jar" }
        assetIndex :=
          { id := getAssetIndex v.id
            sha1 := "asset_" ++ v.sha1
            size := 123456
            totalSize := 234567890
            url := "https://piston-meta.mojang.com/v1/packages/assets/"
                   ++ getAssetIndex v.id ++ ".json" }
        javaVersion :=
          { component := getJavaVersion v.id
            majorVersion := getJavaMajorVersion v.id } }

/-- `VersionManager.getModLoaderSize` (mock loader sizes, default 0). -/
def getModLoaderSize (modLoader : String) : Int :=
  if modLoader = "forge" then 15000000
  else if modLoader = "fabric" then 5000000
  else if modLoader = "optifine" then 8000000
  else 0

/-- `VersionManager.calculateDownloadSize` (src/js/versions.js lines 358-378):
client size, plus each library artifact size (guarded on artifact presence),
plus the asset bundle total size, plus the loader size when one is given. -/
def calculateDownloadSize (versionId : String) (modLoader : Option String)
    (rand : Nat → ℚ) : Except String Int :=
  (getVersionDetails versionId rand).map fun d =>
    let t0 := d.client.size
    let t1 := d.libraries.foldl
      (fun acc lib => match lib.artifact with
        | some a => acc + a.size
        | none => acc) t0
    let t2 := t1 + d.assetIndex.totalSize
    match modLoader with
    | some ml => t2 + getModLoaderSize ml
    | none => t2

/-! ## Game launcher (src/js/launcher.js) -/

/-- The authenticated user record fields read by the launcher. -/
structure User where
  username : String
  uuid : String
  accessToken : String
  deriving DecidableEq, Repr

/-- `GameLauncher.gameSettings`. -/
structure GameSettings where
  ramAllocation : Int
  resolutionWidth : Int
  resolutionHeight : Int
  jvmArgs : String
  closeLauncherAfterStart : Bool
  deriving DecidableEq, Repr

/-- `GameLauncher.getUserType` (src/js/launcher.js lines 220-232), with the
ambient `authManager.getAuthType()` made an explicit argument. -/
def getUserType (authType : String) : String :=
  if authType = "microsoft" || authType = "mojang" then "mojang" else "legacy"

/-- `GameLauncher.replaceArgumentVariables` (src/js/launcher.js lines
204-217): a chain of eleven JavaScript `String.prototype.replace` calls,
each of which replaces only the first occurrence of its placeholder. -/
def replaceArgumentVariables (arg : String) (user : User) (d : VersionDetails)
    (gameDirectory assetsDirectory authType : String) : String :=
  let s0 := jsReplace arg ("$\x7bauth_player_name\x7d") user.username
  let s1 := jsReplace s0 ("$\x7bversion_name\x7d") d.id
  let s2 := jsReplace s1 ("$\x7bgame_directory\x7d") gameDirectory
  let s3 := jsReplace s2 ("$\x7bassets_root\x7d") assetsDirectory
  let s4 := jsReplace s3 ("$\x7bassets_index_name\x7d") d.assetIndex.id
  let s5 := jsReplace s4 ("$\x7bauth_uuid\x7d") user.uuid
  let s6 := jsReplace s5 ("$\x7bauth_access_token\x7d") user.accessToken
  let s7 := jsReplace s6 ("$\x7buser_type\x7d") (getUserType authType)
  let s8 := jsReplace s7 ("$\x7bversion_type\x7d") d.vtype
  let s9 := jsReplace s8 ("$\x7blauncher_name\x7d") ("CraftLauncher")
  jsReplace s9 ("$\x7blauncher_version\x7d") ("1.0.0")

/-- `GameLauncher.buildJVMArguments` (src/js/launcher.js lines 147-165):
memory flags, then the user flags (split on spaces, blanks dropped, skipped
entirely when the setting is the empty string), then the fixed flags. -/
def buildJVMArguments (settings : GameSettings) : List String :=
  let memory := [ "-Xmx" ++ toString settings.ramAllocation ++ "M",
                  "-Xms" ++ toString (min 512 settings.ramAllocation) ++ "M" ]
  let custom :=
    if settings.jvmArgs ≠ "" then
      (jsSplit settings.jvmArgs ' ').filter (fun a => jsTrim a ≠ "")
    else []
  memory ++ custom ++
    [ "-Djava.library.path=natives",
      "-Dminecraft.launcher.brand=CraftLauncher",
      "-Dminecraft.launcher.version=1.0.0" ]

/-- `GameLauncher.buildClasspath` (src/js/launcher.js lines 130-144); the
platform path separator is an explicit argument. The `librariesDirectory`
parameter is accepted but, as in the source, never used. -/
def buildClasspath (d : VersionDetails) (librariesDirectory sep : String) : String :=
  let entries := ("versions/" ++ d.id ++ "/" ++ d.id ++ ".jar")
    :: d.libraries.filterMap (fun lib => lib.artifact.map (fun a => "libraries/" ++ a.path))
  String.intercalate sep entries

/-- `GameLauncher.buildGameArguments` (src/js/launcher.js lines 168-201):
substitute each token of the legacy argument template, then append
resolution arguments and optional server host/port arguments. -/
def buildGameArguments (user : User) (d : VersionDetails)
    (gameDirectory assetsDirectory : String) (serverAddress : Option String)
    (settings : GameSettings) (authType : String) : List String :=
  let templated :=
    if d.minecraftArguments ≠ "" then
      (jsSplit d.minecraftArguments ' ').map
        (fun a => replaceArgumentVariables a user d gameDirectory assetsDirectory authType)
    else []
  let withRes := templated ++
    [ "--width", toString settings.resolutionWidth,
      "--height", toString settings.resolutionHeight ]
  match serverAddress with
  | none => withRes
  | some sa =>
    let parts := jsSplit sa ':'
    let ip := parts.headD ""
    withRes ++ ["--server", ip] ++
      (match parts.get? 1 with
       | some port => if port ≠ "" then ["--port", port] else []
       | none => [])

/-- The launch parameter record returned by `prepareLaunchParameters`. -/
structure LaunchParams where
  mainClass : String
  classpath : String
  jvmArgs : List String
  gameArgs : List String
  workingDirectory : String
  versionId : String
  user : User
  modLoader : Option String
  deriving DecidableEq, Repr

/-- `GameLauncher.prepareLaunchParameters` (src/js/launcher.js lines
103-127): assemble classpath, JVM arguments and game arguments. The source
performs no validation of the settings and cannot fail. -/
def prepareLaunchParameters (user : User) (d : VersionDetails)
    (modLoader serverAddress : Option String) (settings : GameSettings)
    (sep authType : String) : LaunchParams :=
  { mainClass := d.mainClass
    classpath := buildClasspath d (".minecraft/libraries") sep
    jvmArgs := buildJVMArguments settings
    gameArgs := buildGameArguments user d (".minecraft") (".minecraft/assets")
      serverAddress settings authType
    workingDirectory := ".minecraft"
    versionId := d.id
    user := user
    modLoader := modLoader }

/-- One entry of the launch history. -/
structure LaunchEntry where
  versionId : String
  modLoader : Option String
  serverAddress : Option String
  timestamp : Int
  username : String
  deriving DecidableEq, Repr

/-- `GameLauncher.addToLaunchHistory` (src/js/launcher.js lines 329-338):
`unshift` the new entry, then `splice(50)` when the list exceeds 50. -/
def addToLaunchHistory (history : List LaunchEntry) (entry : LaunchEntry) :
    List LaunchEntry :=
  let h := entry :: history
  if h.length > 50 then h.take 50 else h

/-- The simulated game process handle. -/
structure GameProcess where
  pid : Int
  startTime : Int
  version : String
  user : String
  deriving DecidableEq, Repr

/-- The launcher-relevant mutable state: the auth manager's current user and
auth type, the installed-version set, the launch history and the process. -/
structure LauncherState where
  currentUser : Option User
  authType : Option String
  installedVersions : List String
  launchHistory : List LaunchEntry
  gameProcess : Option GameProcess
  gameSettings : GameSettings
  deriving Repr

/-- `AuthManager.isAuthenticated`: `currentUser !== null && authType !== null`. -/
def isAuthenticated (st : LauncherState) : Bool :=
  st.currentUser.isSome && st.authType.isSome

/-- `VersionManager.isVersionInstalled`. -/
def isVersionInstalled (st : LauncherState) (versionId : String) : Bool :=
  st.installedVersions.contains versionId

/-- `GameLauncher.launchGame` (src/js/launcher.js lines 51-100): check
authentication, check installation, resolve the version, build parameters,
simulate the launch (its success is the explicit `launchOk`, the process id
and clock are the explicit `pid` and `now`), then record the launch. Thrown
errors are `Except.error`; the state is returned alongside the outcome. -/
def launchGame (st : LauncherState) (versionId : String)
    (modLoader serverAddress : Option String) (rand : Nat → ℚ)
    (launchOk : Bool) (pid now : Int) (sep : String) :
    Except String Bool × LauncherState :=
  match st.currentUser, st.authType with
  | some user, some authType =>
    if ¬ isVersionInstalled st versionId then
      (.error ("Minecraft " ++ versionId ++ " is not installed"), st)
    else
      match getVersionDetails versionId rand with
      | .error e => (.error e, st)
      | .ok d =>
        let params := prepareLaunchParameters user d modLoader serverAddress
          st.gameSettings sep authType
        if launchOk then
          let proc : GameProcess := ⟨pid, now, params.versionId, params.user.username⟩
          let entry : LaunchEntry := ⟨versionId, modLoader, serverAddress, now, user.username⟩
          let st1 := { st with gameProcess := some proc }
          let st2 := { st1 with launchHistory := addToLaunchHistory st1.launchHistory entry }
          (.ok true, st2)
        else (.error ("Failed to start game process"), st)
  | _, _ => (.error ("User not authenticated"), st)

/-! ## Download manager (src/js/downloader.js) -/

/-- Outcome of one `downloadVersion` run: the files for which a
`downloadFile` call completed (in order), whether the asset bundle and the
mod loader phases ran (their simulated transfers always resolve), whether
the version was marked installed, and the error rethrown, if any. -/
structure DownloadVersionResult where
  completed : List String
  assetsDownloaded : Bool
  modLoaderDownloaded : Bool
  installed : Bool
  error : Option String
  deriving DecidableEq, Repr

/-- The sequential `for (const library of versionDetails.libraries)` loop of
`downloadVersion`: each library with an artifact is fetched with `await`, so
the first failure aborts the loop and the remaining libraries are never
attempted. `fails f` tells whether the transfer of file `f` fails. -/
def downloadLibraries (fails : String → Bool) :
    List MockLibrary → List String × Option String
  | [] => ([], none)
  | lib :: rest =>
    match lib.artifact with
    | none => downloadLibraries fails rest
    | some a =>
      if fails a.path then ([], some ("Download failed: Network error"))
      else
        let r := downloadLibraries fails rest
        (a.path :: r.1, r.2)

/-- `DownloadManager.downloadVersion` (src/js/downloader.js lines 124-223):
download the client jar, then each library sequentially, then the assets and
the optional mod loader (whose simulated transfers always resolve), then
mark the version installed; any `downloadFile` failure is rethrown
immediately by the surrounding try/catch, aborting the remaining transfers. -/
def downloadVersion (d : VersionDetails) (modLoader : Option String)
    (fails : String → Bool) : DownloadVersionResult :=
  let clientFile := d.id ++ ".jar"
  if fails clientFile then
    ⟨[], false, false, false, some ("Download failed: Network error")⟩
  else
    match downloadLibraries fails d.libraries with
    | (done, some e) => ⟨clientFile :: done, false, false, false, some e⟩
    | (done, none) =>
      ⟨clientFile :: done, true, modLoader.isSome, true, none⟩

/-- One entry of the persisted download history. -/
structure DownloadHistEntry where
  filename : String
  size : Int
  date : String
  status : String
  deriving DecidableEq, Repr

/-- `DownloadManager.addToHistory` (src/js/downloader.js lines 385-400):
`unshift` the entry built from the finished download (its date comes from
the wall clock, made explicit), then `splice(50)` past 50 entries. -/
def addToHistory (history : List DownloadHistEntry)
    (filename : String) (size : Int) (date status : String) :
    List DownloadHistEntry :=
  let h : List DownloadHistEntry := ⟨filename, size, date, status⟩ :: history
  if h.length > 50 then h.take 50 else h

/-! ## Specification-side definitions

These do not embed source code; they state, in the specification's own
words, behaviour the code is claimed to have, for comparison with the
embedded functions. -/

/-- Modelled from the spec: replace every (non-overlapping, left-to-right)
occurrence of `pat` with `rep`, as the specification's substitution
contract demands ("replacing every placeholder occurrence"). The fuel is
the remaining input length, which suffices because every step consumes at
least one character (the placeholder patterns are nonempty). -/
def specReplaceAllFuel (pat rep : List Char) : Nat → List Char → List Char
  | 0, s => s
  | _, [] => []
  | fuel + 1, c :: rest =>
    if pat ≠ [] ∧ pat.isPrefixOf (c :: rest) then
      rep ++ specReplaceAllFuel pat rep fuel ((c :: rest).drop pat.length)
    else c :: specReplaceAllFuel pat rep fuel rest

/-- Modelled from the spec: string version of `specReplaceAllFuel`. -/
def specReplaceAll (s pat rep : String) : String :=
  String.mk (specReplaceAllFuel pat.data rep.data s.data.length s.data)

/-- Modelled from the spec: the argument substitution of §4.3 with
every-occurrence semantics, over the same eleven keys in the same order as
`replaceArgumentVariables`. -/
def specReplaceArgumentVariables (arg : String) (user : User)
    (d : VersionDetails) (gameDirectory assetsDirectory authType : String) :
    String :=
  let s0 := specReplaceAll arg ("$\x7bauth_player_name\x7d") user.username
  let s1 := specReplaceAll s0 ("$\x7bversion_name\x7d") d.id
  let s2 := specReplaceAll s1 ("$\x7bgame_directory\x7d") gameDirectory
  let s3 := specReplaceAll s2 ("$\x7bassets_root\x7d") assetsDirectory
  let s4 := specReplaceAll s3 ("$\x7bassets_index_name\x7d") d.assetIndex.id
  let s5 := specReplaceAll s4 ("$\x7bauth_uuid\x7d") user.uuid
  let s6 := specReplaceAll s5 ("$\x7bauth_access_token\x7d") user.accessToken
  let s7 := specReplaceAll s6 ("$\x7buser_type\x7d") (getUserType authType)
  let s8 := specReplaceAll s7 ("$\x7bversion_type\x7d") d.vtype
  let s9 := specReplaceAll s8 ("$\x7blauncher_name\x7d") ("CraftLauncher")
  specReplaceAll s9 ("$\x7blauncher_version\x7d") ("1.0.0")

/-- The eleven placeholder keys recognised by `replaceArgumentVariables`. -/
def argumentKeys : List String :=
  [ "$\x7bauth_player_name\x7d", "$\x7bversion_name\x7d",
    "$\x7bgame_directory\x7d", "$\x7bassets_root\x7d",
    "$\x7bassets_index_name\x7d", "$\x7bauth_uuid\x7d",
    "$\x7bauth_access_token\x7d", "$\x7buser_type\x7d",
    "$\x7bversion_type\x7d", "$\x7blauncher_name\x7d",
    "$\x7blauncher_version\x7d" ]

/-! ## Concrete fixtures for counterexamples and witnesses -/

/-- A concrete authenticated identity (the spec's Scenario E identity). -/
def demoUser : User :=
  { username := "Steve", uuid := "u-1", accessToken := "tok-1" }

/-- A concrete resolved version details record with four declared library
artifacts (five downloadable files counting the client jar). -/
def demoDetails : VersionDetails :=
  { id := "1.20.4"
    vtype := "release"
    mainClass := "net.minecraft.client.main.Main"
    minecraftArguments := "--username $\x7bauth_player_name\x7d --uuid $\x7bauth_uuid\x7d"
    libraries :=
      [ ⟨"libA", some ⟨"a/libA.jar", "aa", 100, "https://x/a"⟩⟩,
        ⟨"libB", some ⟨"b/libB.jar", "bb", 200, "https://x/b"⟩⟩,
        ⟨"libC", some ⟨"c/libC.jar", "cc", 300, "https://x/c"⟩⟩,
        ⟨"libD", some ⟨"d/libD.jar", "dd", 400, "https://x/d"⟩⟩ ]
    client := ⟨"mno345", 23987654, "https://x/client.jar"⟩
    assetIndex := ⟨"7", "asset_mno345", 123456, 234567890, "https://x/assets"⟩
    javaVersion := ⟨"java-runtime-delta", 21⟩ }

/-- Concrete game settings with non-positive numeric fields. -/
def invalidSettings : GameSettings :=
  { ramAllocation := 0, resolutionWidth := -1, resolutionHeight := 0,
    jvmArgs := "", closeLauncherAfterStart := false }

/-- The default settings of `GameLauncher` with the memory allocation set
to 1024 (the spec's Scenario D first case). -/
def settings1024 : GameSettings :=
  { ramAllocation := 1024, resolutionWidth := 1280, resolutionHeight := 720,
    jvmArgs := "-XX:+UseG1GC -XX:+UnlockExperimentalVMOptions",
    closeLauncherAfterStart := false }

/-- The default settings with the memory allocation set to 256 (the spec's
Scenario D second case). -/
def settings256 : GameSettings :=
  { ramAllocation := 256, resolutionWidth := 1280, resolutionHeight := 720,
    jvmArgs := "-XX:+UseG1GC -XX:+UnlockExperimentalVMOptions",
    closeLauncherAfterStart := false }

/-- A launcher state with no authenticated user. -/
def stNoAuth : LauncherState :=
  { currentUser := none, authType := none, installedVersions := ["1.20.4"],
    launchHistory := [], gameProcess := none, gameSettings := settings1024 }

/-- A launcher state with an authenticated user but no installed version. -/
def stNotInstalled : LauncherState :=
  { currentUser := some demoUser, authType := some ("offline"),
    installedVersions := [], launchHistory := [], gameProcess := none,
    gameSettings := settings1024 }

/-! ## Projections used to state the claims -/

/-- The library artifact sizes of a resolution outcome, in declaration
order (none when the resolution failed). -/
def librarySizes (e : Except String VersionDetails) : Option (List Int) :=
  e.toOption.map (fun d =>
    (d.libraries.filterMap (fun l => l.artifact)).map (fun a => a.size))

/-- A version details record with every library artifact size replaced by
0: the part of the resolution the randomness cannot reach. -/
def scrubLibrarySizes (d : VersionDetails) : VersionDetails :=
  { d with libraries := d.libraries.map (fun l =>
      { l with artifact := l.artifact.map (fun a => { a with size := 0 }) }) }

/-- The files `downloadVersion` fetches through `downloadFile`, in order:
the client jar, then each declared library artifact path. -/
def downloadFiles (d : VersionDetails) : List String :=
  (d.id ++ ".jar") :: d.libraries.filterMap (fun l => l.artifact.map (fun a => a.path))

/-- Whether one attempt outcome of `retry` is a success. -/
def attemptOk (e : Except String Nat) : Bool :=
  match e with
  | .ok _ => true
  | .error _ => false

/-!
## Theorems

Helper lemmas first, then one theorem per specification claim (with its
witness or counterexample where applicable).
-/

/-- The JavaScript ToInt32 truncation always lands in [-2^31, 2^31). -/
theorem toInt32_bounds (n : Int) :
    -2147483648 ≤ toInt32 n ∧ toInt32 n < 2147483648 := by
  unfold toInt32
  have h1 : 0 ≤ n % 4294967296 := Int.emod_nonneg n (by norm_num)
  have h2 : n % 4294967296 < 4294967296 := Int.emod_lt_of_pos n (by norm_num)
  dsimp only
  split <;> omega

/-- The hash accumulator stays in the 32-bit signed range. -/
theorem foldl_hashStep_bounds (l : List Char) :
    ∀ h : Int, -2147483648 ≤ h → h < 2147483648 →
      -2147483648 ≤ l.foldl hashStep h ∧ l.foldl hashStep h < 2147483648 := by
  induction l with
  | nil => intro h hl hu; exact ⟨hl, hu⟩
  | cons c rest ih =>
    intro h hl hu
    have hb := toInt32_bounds (toInt32 (h * 32) - h + (c.toNat : Int))
    simpa [List.foldl_cons, hashStep] using ih _ hb.1 hb.2

/-- C10: `Utils.hashString` is total and non-negative: for every string it
returns an integer in [0, 2^31] (the absolute value of the accumulated
32-bit hash), and the empty string hashes to 0, so rendering the result
with `toString(16)` always yields a well-formed unsigned hex digest. -/
theorem hashString_nonneg (s : String) :
    0 ≤ hashString s ∧ hashString s ≤ 2147483648 ∧ hashString ("") = 0 := by
  refine ⟨?_, ?_, rfl⟩
  · unfold hashString
    split
    · omega
    · exact Int.natCast_nonneg _
  · unfold hashString
    split
    · omega
    · have hb := foldl_hashStep_bounds s.data 0 (by norm_num) (by norm_num)
      omega

/-- Inserting at the front and splicing past index 50 is exactly a
`take 50` of the extended list. -/
theorem cons_cap_take {α : Type} (l : List α) (a : α) :
    (if (a :: l).length > 50 then (a :: l).take 50 else a :: l)
      = (a :: l).take 50 := by
  split
  · rfl
  · next hle => exact (List.take_of_length_le (by omega)).symm

/-- C8: both history lists are bounded to the 50 most recent entries: each
insert places the new entry first and keeps only the first 50 entries of
the extended list, so the result never exceeds 50 entries; this holds for
`addToLaunchHistory` and `addToHistory` alike. -/
theorem history_capped_at_50 (lh : List LaunchEntry) (e : LaunchEntry)
    (dh : List DownloadHistEntry) (filename : String) (size : Int)
    (date status : String) :
    addToLaunchHistory lh e = (e :: lh).take 50
    ∧ (addToLaunchHistory lh e).length ≤ 50
    ∧ (addToLaunchHistory lh e).head? = some e
    ∧ addToHistory dh filename size date status
        = ((⟨filename, size, date, status⟩ : DownloadHistEntry) :: dh).take 50
    ∧ (addToHistory dh filename size date status).length ≤ 50
    ∧ (addToHistory dh filename size date status).head?
        = some (⟨filename, size, date, status⟩ : DownloadHistEntry) := by
  have h1 : addToLaunchHistory lh e = (e :: lh).take 50 := cons_cap_take lh e
  have h2 : addToHistory dh filename size date status
      = ((⟨filename, size, date, status⟩ : DownloadHistEntry) :: dh).take 50 :=
    cons_cap_take dh _
  refine ⟨h1, ?_, ?_, h2, ?_, ?_⟩
  · rw [h1, List.length_take]; omega
  · rw [h1]; rfl
  · rw [h2, List.length_take]; omega
  · rw [h2]; rfl

/-- C4: the JVM argument list starts with the maximum-memory flag for the
configured allocation, then the minimum-memory flag for
`min(512, allocation)`, then the user flags split on spaces with blank
entries removed, then the fixed launcher identification flags; in
particular an allocation of 1024 yields `-Xmx1024M -Xms512M` and an
allocation of 256 yields a minimum-memory flag of `-Xms256M`. -/
theorem buildJVMArguments_spec (settings : GameSettings) :
    buildJVMArguments settings
      = ["-Xmx" ++ toString settings.ramAllocation ++ "M",
         "-Xms" ++ toString (min 512 settings.ramAllocation) ++ "M"]
        ++ (jsSplit settings.jvmArgs ' ').filter (fun a => jsTrim a ≠ "")
        ++ ["-Djava.library.path=natives",
            "-Dminecraft.launcher.brand=CraftLauncher",
            "-Dminecraft.launcher.version=1.0.0"]
    ∧ (buildJVMArguments settings1024).take 2 = ["-Xmx1024M", "-Xms512M"]
    ∧ (buildJVMArguments settings256).take 2 = ["-Xmx256M", "-Xms256M"] := by
  refine ⟨?_, by decide, by decide⟩
  by_cases h : settings.jvmArgs = ""
  · simp [buildJVMArguments, h]
    decide
  · simp [buildJVMArguments, h]

/-- Folding the guarded size accumulation equals adding the sum of the
present artifact sizes. -/
theorem foldl_artifact_sizes (libs : List MockLibrary) (init : Int) :
    libs.foldl (fun acc lib => match lib.artifact with
      | some a => acc + a.size
      | none => acc) init
      = init + ((libs.filterMap (fun l => l.artifact)).map (fun a => a.size)).sum := by
  induction libs generalizing init with
  | nil => simp
  | cons l rest ih =>
    cases h : l.artifact with
    | none => simp [List.foldl_cons, h, ih]
    | some a =>
      simp [List.foldl_cons, h, ih, List.filterMap_cons]
      omega

/-- C6: the computed total download size is the sum of the parts: the
client binary size, plus every library artifact size, plus the asset
bundle's aggregate size, plus the loader size when a loader is given and
nothing otherwise. -/
theorem calculateDownloadSize_eq_sum (versionId : String)
    (modLoader : Option String) (rand : Nat → ℚ) :
    calculateDownloadSize versionId modLoader rand
      = (getVersionDetails versionId rand).map (fun d =>
          d.client.size
          + ((d.libraries.filterMap (fun l => l.artifact)).map (fun a => a.size)).sum
          + d.assetIndex.totalSize
          + (match modLoader with
             | some ml => getModLoaderSize ml
             | none => 0)) := by
  unfold calculateDownloadSize
  cases hd : getVersionDetails versionId rand with
  | error e => rfl
  | ok d =>
    simp only [Except.map]
    congr 1
    dsimp only
    rw [foldl_artifact_sizes]
    cases modLoader <;> ring

/-- C1 (amended): resolution is deterministic up to the library artifact
sizes: two `getVersionDetails` calls with the same catalog agree on every
field, library names, paths, hashes and URLs included, once the library
artifact sizes (which are drawn from the random source) are disregarded. -/
theorem getVersionDetails_deterministic_up_to_sizes (versionId : String)
    (r1 r2 : Nat → ℚ) :
    (getVersionDetails versionId r1).map scrubLibrarySizes
      = (getVersionDetails versionId r2).map scrubLibrarySizes := by
  unfold getVersionDetails
  cases getVersionById versionId with
  | none => rfl
  | some v =>
    simp [Except.map, scrubLibrarySizes, getMockLibraries, List.map_map,
      Function.comp]

/-- C1 (counterexample): with the same catalog state, two resolutions of
version 1.20.4 that consume different `Math.random()` samples return
different library artifact sizes, refuting bit-identical resolution. -/
theorem getVersionDetails_not_deterministic :
    librarySizes (getVersionDetails ("1.20.4") (fun _ => 0))
      ≠ librarySizes (getVersionDetails ("1.20.4") (fun _ => (1 : ℚ)/2)) := by
  simp [librarySizes, getVersionDetails, getVersionById, getMockVersions,
    getMockLibraries, baseLibraries, List.find?, List.enum, List.enumFrom,
    Except.toOption]
  norm_num

/-- C5 (amended): building launch parameters performs no validation of the
numeric settings: even when the memory allocation or a display dimension
is non-positive, `prepareLaunchParameters` still returns a launch
invocation, whose first JVM argument embeds the configured allocation and
whose version id is the resolved one; no `InvalidSettings` failure
exists. -/
theorem prepareLaunchParameters_no_validation (user : User) (d : VersionDetails)
    (modLoader serverAddress : Option String) (settings : GameSettings)
    (sep authType : String)
    (h : settings.ramAllocation ≤ 0 ∨ settings.resolutionWidth ≤ 0
         ∨ settings.resolutionHeight ≤ 0) :
    (prepareLaunchParameters user d modLoader serverAddress settings
        sep authType).jvmArgs.head?
      = some ("-Xmx" ++ toString settings.ramAllocation ++ "M")
    ∧ (prepareLaunchParameters user d modLoader serverAddress settings
        sep authType).versionId = d.id := by
  exact ⟨rfl, rfl⟩

/-- C5 (witness): the settings with memory 0 and display -1 x 0 are
non-positive, and the build still returns an invocation. -/
theorem prepareLaunchParameters_no_validation_witness :
    (invalidSettings.ramAllocation ≤ 0 ∨ invalidSettings.resolutionWidth ≤ 0
      ∨ invalidSettings.resolutionHeight ≤ 0)
    ∧ ((prepareLaunchParameters demoUser demoDetails none none invalidSettings
          (":") ("offline")).jvmArgs.head?
        = some ("-Xmx" ++ toString invalidSettings.ramAllocation ++ "M")
      ∧ (prepareLaunchParameters demoUser demoDetails none none invalidSettings
          (":") ("offline")).versionId = demoDetails.id) :=
  ⟨by decide,
   prepareLaunchParameters_no_validation demoUser demoDetails none none
     invalidSettings (":") ("offline") (by decide)⟩

/-- C5 (counterexample): with a zero memory allocation and non-positive
display dimensions, `prepareLaunchParameters` does not fail: it returns a
launch invocation whose JVM arguments embed the invalid values. -/
theorem prepareLaunchParameters_accepts_invalid_settings :
    (prepareLaunchParameters demoUser demoDetails none none invalidSettings
        (":") ("offline")).jvmArgs
      = ["-Xmx0M", "-Xms0M", "-Djava.library.path=natives",
         "-Dminecraft.launcher.brand=CraftLauncher",
         "-Dminecraft.launcher.version=1.0.0"] := by
  decide

/-- A JavaScript first-occurrence replace whose pattern does not occur in
the subject leaves the subject unchanged (character-list form). -/
theorem jsReplaceList_no_occurrence (pat rep : List Char) (hne : pat ≠ [])
    (s : List Char) (h : ¬ pat <:+: s) : jsReplaceList pat rep s = s := by
  induction s with
  | nil =>
    rw [jsReplaceList, if_neg]
    intro hp
    cases pat with
    | nil => exact hne rfl
    | cons c cs => simp [List.isPrefixOf] at hp
  | cons c rest ih =>
    have hrest : ¬ pat <:+: rest := fun hi =>
      h (hi.trans (List.suffix_cons c rest).isInfix)
    have hpre : ¬ pat.isPrefixOf (c :: rest) = true := fun hp =>
      h ((List.isPrefixOf_iff_prefix.mp hp).isInfix)
    rw [jsReplaceList, if_neg hpre, ih hrest]

/-- A JavaScript first-occurrence replace whose pattern does not occur in
the subject leaves the subject unchanged. -/
theorem jsReplace_no_occurrence (s pat rep : String) (hne : pat.data ≠ [])
    (h : ¬ pat.data <:+: s.data) : jsReplace s pat rep = s := by
  unfold jsReplace
  rw [jsReplaceList_no_occurrence pat.data rep.data hne s.data h]

/-- C2 (amended): argument substitution replaces only the first occurrence
of each recognized placeholder (the eleven keys, applied in order) and is
the identity on text containing no key: a token free of every key is
returned verbatim, while a token holding the unique-id placeholder twice
has only its first occurrence replaced, the second surviving. -/
theorem replaceArgumentVariables_first_occurrence
    (arg : String) (user : User) (d : VersionDetails)
    (gameDirectory assetsDirectory authType : String)
    (h : ∀ pat ∈ argumentKeys, ¬ pat.data <:+: arg.data) :
    replaceArgumentVariables arg user d gameDirectory assetsDirectory authType = arg
    ∧ replaceArgumentVariables ("$\x7bauth_uuid\x7d$\x7bauth_uuid\x7d") demoUser
        demoDetails (".minecraft") (".minecraft/assets") ("offline")
      = "u-1$\x7bauth_uuid\x7d" := by
  refine ⟨?_, by decide⟩
  simp only [replaceArgumentVariables]
  rw [jsReplace_no_occurrence _ _ _ (by decide) (h ("$\x7bauth_player_name\x7d") (by decide)),
    jsReplace_no_occurrence _ _ _ (by decide) (h ("$\x7bversion_name\x7d") (by decide)),
    jsReplace_no_occurrence _ _ _ (by decide) (h ("$\x7bgame_directory\x7d") (by decide)),
    jsReplace_no_occurrence _ _ _ (by decide) (h ("$\x7bassets_root\x7d") (by decide)),
    jsReplace_no_occurrence _ _ _ (by decide) (h ("$\x7bassets_index_name\x7d") (by decide)),
    jsReplace_no_occurrence _ _ _ (by decide) (h ("$\x7bauth_uuid\x7d") (by decide)),
    jsReplace_no_occurrence _ _ _ (by decide) (h ("$\x7bauth_access_token\x7d") (by decide)),
    jsReplace_no_occurrence _ _ _ (by decide) (h ("$\x7buser_type\x7d") (by decide)),
    jsReplace_no_occurrence _ _ _ (by decide) (h ("$\x7bversion_type\x7d") (by decide)),
    jsReplace_no_occurrence _ _ _ (by decide) (h ("$\x7blauncher_name\x7d") (by decide)),
    jsReplace_no_occurrence _ _ _ (by decide) (h ("$\x7blauncher_version\x7d") (by decide))]

/-- C2 (witness): a token containing no placeholder key is returned
verbatim, and the double-placeholder token keeps its second occurrence. -/
theorem replaceArgumentVariables_first_occurrence_witness :
    (∀ pat ∈ argumentKeys, ¬ pat.data <:+: ("--demo").data)
    ∧ (replaceArgumentVariables ("--demo") demoUser demoDetails (".minecraft")
          (".minecraft/assets") ("offline") = "--demo"
      ∧ replaceArgumentVariables ("$\x7bauth_uuid\x7d$\x7bauth_uuid\x7d") demoUser
          demoDetails (".minecraft") (".minecraft/assets") ("offline")
        = "u-1$\x7bauth_uuid\x7d") :=
  ⟨by decide,
   replaceArgumentVariables_first_occurrence ("--demo") demoUser demoDetails
     (".minecraft") (".minecraft/assets") ("offline") (by decide)⟩

/-- C2 (counterexample): on a token holding the unique-id placeholder
twice, the code's substitution differs from the spec's replace-every-
occurrence substitution: the code leaves the second occurrence in place. -/
theorem replaceArgumentVariables_misses_second_occurrence :
    replaceArgumentVariables ("$\x7bauth_uuid\x7d$\x7bauth_uuid\x7d") demoUser
        demoDetails (".minecraft") (".minecraft/assets") ("offline")
      ≠ specReplaceArgumentVariables ("$\x7bauth_uuid\x7d$\x7bauth_uuid\x7d")
        demoUser demoDetails (".minecraft") (".minecraft/assets") ("offline") := by
  decide

/-- The sequential library download loop completes exactly the prefix of
artifact paths before the first failing one, and errors out as soon as one
path fails. -/
theorem downloadLibraries_spec (fails : String → Bool) (libs : List MockLibrary) :
    downloadLibraries fails libs
      = ((libs.filterMap (fun l => l.artifact.map (fun a => a.path))).takeWhile
            (fun f => !fails f),
         if (libs.filterMap (fun l => l.artifact.map (fun a => a.path))).all
              (fun f => !fails f)
         then none else some ("Download failed: Network error")) := by
  induction libs with
  | nil => simp [downloadLibraries]
  | cons l rest ih =>
    cases ha : l.artifact with
    | none => simp [downloadLibraries, ha, ih, List.filterMap_cons]
    | some a =>
      by_cases hf : fails a.path
      · simp [downloadLibraries, ha, hf, List.filterMap_cons]
      · simp [downloadLibraries, ha, hf, ih, List.filterMap_cons]

/-- C3 (amended): download failures are not isolated: `downloadVersion`
attempts the client jar and the library artifacts strictly in order, stops
at the first failing transfer and rethrows its error, so exactly the files
before the first failure complete, the assets and loader phases never run
after a failure, and the version is marked installed only when every file
succeeds; no partial-failure outcome is produced. -/
theorem downloadVersion_aborts_on_first_failure (d : VersionDetails)
    (modLoader : Option String) (fails : String → Bool) :
    (downloadVersion d modLoader fails).completed
        = (downloadFiles d).takeWhile (fun f => !fails f)
    ∧ (downloadVersion d modLoader fails).error
        = (if (downloadFiles d).all (fun f => !fails f) then none
           else some ("Download failed: Network error"))
    ∧ (downloadVersion d modLoader fails).installed
        = (downloadFiles d).all (fun f => !fails f)
    ∧ (downloadVersion d modLoader fails).assetsDownloaded
        = (downloadFiles d).all (fun f => !fails f) := by
  unfold downloadVersion downloadFiles
  by_cases hc : fails (d.id ++ ".jar")
  · simp [hc]
  · rw [downloadLibraries_spec]
    by_cases hall : (d.libraries.filterMap
        (fun l => l.artifact.map (fun a => a.path))).all (fun f => !fails f)
    · simp [hc, hall]
    · simp [hc, hall]

/-- C3 (counterexample): on a manifest of five artifacts (client jar plus
four libraries) where exactly the third library fails on every attempt,
the run aborts with the rethrown error after completing only the two
artifacts before it — not the four the claim requires — and the version is
not installed. -/
theorem downloadVersion_aborts_counterexample :
    (downloadVersion demoDetails none (fun f => f = "c/libC.jar")).error
        = some ("Download failed: Network error")
    ∧ (downloadVersion demoDetails none (fun f => f = "c/libC.jar")).completed
        = ["1.20.4.jar", "a/libA.jar", "b/libB.jar"]
    ∧ ¬ (downloadVersion demoDetails none
          (fun f => f = "c/libC.jar")).completed.length = 4
    ∧ (downloadVersion demoDetails none (fun f => f = "c/libC.jar")).installed
        = false := by
  decide

/-- The retry loop invariant: started at `attempt` with fuel for the
remaining allowed iterations, the loop makes between 1 and `fuel`
attempts, returns the outcome of the last attempt made, fails every
attempt before the last, only stops on an error at the final allowed
attempt, and waits the uncapped doubling backoff between consecutive
attempts. -/
theorem retryLoop_spec (results : Nat → Except String Nat) (maxAttempts base : Nat) :
    ∀ fuel attempt, 1 ≤ attempt → attempt + fuel = maxAttempts + 1 → 1 ≤ fuel →
      (1 ≤ (retryLoop results maxAttempts base attempt fuel).attempts
        ∧ (retryLoop results maxAttempts base attempt fuel).attempts ≤ fuel)
      ∧ (retryLoop results maxAttempts base attempt fuel).result
          = some (results
              (attempt + (retryLoop results maxAttempts base attempt fuel).attempts - 1))
      ∧ (∀ i, attempt ≤ i →
          i < attempt + (retryLoop results maxAttempts base attempt fuel).attempts - 1 →
          attemptOk (results i) = false)
      ∧ (attemptOk (results
            (attempt + (retryLoop results maxAttempts base attempt fuel).attempts - 1)) = true
          ∨ attempt + (retryLoop results maxAttempts base attempt fuel).attempts - 1
              = maxAttempts)
      ∧ (retryLoop results maxAttempts base attempt fuel).delays
          = (List.range ((retryLoop results maxAttempts base attempt fuel).attempts - 1)).map
              (fun j => base * 2 ^ (attempt - 1 + j)) := by
  intro fuel
  induction fuel with
  | zero => intro attempt _ _ h3; omega
  | succ f ih =>
    intro attempt h1 h2 _
    cases hres : results attempt with
    | ok a =>
      have hstep : retryLoop results maxAttempts base attempt (f + 1)
          = ⟨some (.ok a), 1, []⟩ := by rw [retryLoop, hres]
      rw [hstep]
      have hidx : attempt + 1 - 1 = attempt := by omega
      dsimp only
      rw [hidx]
      refine ⟨⟨le_refl 1, by omega⟩, by rw [hres], ?_, ?_, by simp⟩
      · intro i hi1 hi2; omega
      · left; rw [hres]; rfl
    | error e =>
      by_cases hm : attempt = maxAttempts
      · have hstep : retryLoop results maxAttempts base attempt (f + 1)
            = ⟨some (.error e), 1, []⟩ := by
          rw [retryLoop, hres]; simp [hm]
        rw [hstep]
        have hidx : attempt + 1 - 1 = attempt := by omega
        dsimp only
        rw [hidx]
        refine ⟨⟨le_refl 1, by omega⟩, by rw [hres], ?_, Or.inr hm, by simp⟩
        intro i hi1 hi2; omega
      · have hf : 1 ≤ f := by omega
        have hstep : retryLoop results maxAttempts base attempt (f + 1)
            = ⟨(retryLoop results maxAttempts base (attempt + 1) f).result,
               (retryLoop results maxAttempts base (attempt + 1) f).attempts + 1,
               base * 2 ^ (attempt - 1)
                 :: (retryLoop results maxAttempts base (attempt + 1) f).delays⟩ := by
          rw [retryLoop, hres]; simp [hm]
        obtain ⟨⟨ha1, ha2⟩, hb, hc, hd, he⟩ := ih (attempt + 1) (by omega) (by omega) hf
        rw [hstep]
        dsimp only
        refine ⟨⟨by omega, by omega⟩, ?_, ?_, ?_, ?_⟩
        · have hidx : attempt + ((retryLoop results maxAttempts base (attempt + 1) f).attempts + 1) - 1
              = attempt + 1 + (retryLoop results maxAttempts base (attempt + 1) f).attempts - 1 := by
            omega
          rw [hidx]; exact hb
        · intro i hi1 hi2
          by_cases hieq : i = attempt
          · subst hieq; simp [attemptOk, hres]
          · exact hc i (by omega) (by omega)
        · have hidx : attempt + ((retryLoop results maxAttempts base (attempt + 1) f).attempts + 1) - 1
              = attempt + 1 + (retryLoop results maxAttempts base (attempt + 1) f).attempts - 1 := by
            omega
          rw [hidx]; exact hd
        · rw [he]
          obtain ⟨k, hk⟩ : ∃ k, (retryLoop results maxAttempts base (attempt + 1) f).attempts
              = k + 1 := ⟨(retryLoop results maxAttempts base (attempt + 1) f).attempts - 1,
                by omega⟩
          rw [hk]
          have h5 : k + 1 + 1 - 1 = k + 1 := by omega
          have h6 : k + 1 - 1 = k := by omega
          rw [h5, h6, List.range_succ_eq_map, List.map_cons, List.map_map,
            List.cons.injEq]
          refine ⟨?_, ?_⟩
          · have h0 : attempt - 1 + 0 = attempt - 1 := by omega
            rw [h0]
          · apply List.map_congr_left
            intro j _
            simp only [Function.comp]
            have hj : attempt + 1 - 1 + j = attempt - 1 + (j + 1) := by omega
            rw [hj]

/-- C7 (amended): `retry` makes at most `maxAttempts` attempts, stops at
the first success, fails every attempt before the attempt it stops at,
rethrows the last error exactly when the final allowed attempt still
fails, and waits `baseDelay * 2^(attempt-1)` between consecutive attempts
with no cap on the delay. -/
theorem retry_spec (results : Nat → Except String Nat) (maxAttempts base : Nat)
    (h : 1 ≤ maxAttempts) :
    (1 ≤ (retryRun results maxAttempts base).attempts
      ∧ (retryRun results maxAttempts base).attempts ≤ maxAttempts)
    ∧ (retryRun results maxAttempts base).result
        = some (results (retryRun results maxAttempts base).attempts)
    ∧ (∀ i, 1 ≤ i → i < (retryRun results maxAttempts base).attempts →
        attemptOk (results i) = false)
    ∧ (attemptOk (results (retryRun results maxAttempts base).attempts) = true
        ∨ (retryRun results maxAttempts base).attempts = maxAttempts)
    ∧ (retryRun results maxAttempts base).delays
        = (List.range ((retryRun results maxAttempts base).attempts - 1)).map
            (fun j => base * 2 ^ j) := by
  obtain ⟨⟨ha1, ha2⟩, hb, hc, hd, he⟩ :=
    retryLoop_spec results maxAttempts base maxAttempts 1 (le_refl 1) (by omega) h
  unfold retryRun
  have hidx : 1 + (retryLoop results maxAttempts base 1 maxAttempts).attempts - 1
      = (retryLoop results maxAttempts base 1 maxAttempts).attempts := by omega
  rw [hidx] at hb hc hd
  refine ⟨⟨ha1, ha2⟩, hb, hc, hd, ?_⟩
  simpa using he

/-- C7 (witness): retrying a function that always fails, with 3 attempts
and base delay 5, satisfies the retry contract: it stops after exactly
attempt 3 with the rethrown error and waits the doubling delays. -/
theorem retry_spec_witness :
    1 ≤ 3
    ∧ ((1 ≤ (retryRun (fun _ => .error ("boom")) 3 5).attempts
         ∧ (retryRun (fun _ => .error ("boom")) 3 5).attempts ≤ 3)
      ∧ (retryRun (fun _ => .error ("boom")) 3 5).result
          = some ((fun _ => (.error ("boom") : Except String Nat))
              (retryRun (fun _ => .error ("boom")) 3 5).attempts)
      ∧ (∀ i, 1 ≤ i → i < (retryRun (fun _ => .error ("boom")) 3 5).attempts →
          attemptOk ((fun _ => (.error ("boom") : Except String Nat)) i) = false)
      ∧ (attemptOk ((fun _ => (.error ("boom") : Except String Nat))
            (retryRun (fun _ => .error ("boom")) 3 5).attempts) = true
          ∨ (retryRun (fun _ => .error ("boom")) 3 5).attempts = 3)
      ∧ (retryRun (fun _ => .error ("boom")) 3 5).delays
          = (List.range ((retryRun (fun _ => .error ("boom")) 3 5).attempts - 1)).map
              (fun j => 5 * 2 ^ j)) :=
  ⟨by decide, retry_spec (fun _ => .error ("boom")) 3 5 (by decide)⟩

/-- C7 (counterexample): the backoff has no cap: for any candidate maximum
delay, a retry with base delay one larger waits more than that maximum
between its first two attempts. -/
theorem retry_not_capped :
    ¬ ∃ cap : Nat, ∀ (results : Nat → Except String Nat) (maxAttempts base : Nat),
        (retryRun results maxAttempts base).delays
          = (List.range ((retryRun results maxAttempts base).attempts - 1)).map
              (fun j => min (base * 2 ^ j) cap) := by
  rintro ⟨cap, h⟩
  have h2 := h (fun _ => .error ("boom")) 2 (cap + 1)
  have hcomp : retryRun (fun _ => .error ("boom")) 2 (cap + 1)
      = ⟨some (.error ("boom")), 2, [(cap + 1) * 2 ^ 0]⟩ := rfl
  rw [hcomp] at h2
  have hr : List.range (2 - 1) = [0] := rfl
  rw [hr] at h2
  simp at h2

/-- C9: launching checks its preconditions before any state change: when
the user is not authenticated, or the version is not installed, the launch
throws the corresponding error, the state is returned unchanged, and in
particular the launch history and the stored game process are untouched. -/
theorem launchGame_guards (st : LauncherState) (versionId : String)
    (modLoader serverAddress : Option String) (rand : Nat → ℚ)
    (launchOk : Bool) (pid now : Int) (sep : String) :
    (isAuthenticated st = false →
      launchGame st versionId modLoader serverAddress rand launchOk pid now sep
          = (.error ("User not authenticated"), st)
      ∧ (launchGame st versionId modLoader serverAddress rand
          launchOk pid now sep).2.launchHistory = st.launchHistory
      ∧ (launchGame st versionId modLoader serverAddress rand
          launchOk pid now sep).2.gameProcess = st.gameProcess)
    ∧ (isAuthenticated st = true → isVersionInstalled st versionId = false →
      launchGame st versionId modLoader serverAddress rand launchOk pid now sep
          = (.error ("Minecraft " ++ versionId ++ " is not installed"), st)
      ∧ (launchGame st versionId modLoader serverAddress rand
          launchOk pid now sep).2.launchHistory = st.launchHistory
      ∧ (launchGame st versionId modLoader serverAddress rand
          launchOk pid now sep).2.gameProcess = st.gameProcess) := by
  constructor
  · intro hauth
    have key : launchGame st versionId modLoader serverAddress rand launchOk pid now sep
        = (.error ("User not authenticated"), st) := by
      unfold launchGame
      cases hu : st.currentUser <;> cases ha : st.authType
      · rfl
      · rfl
      · rfl
      · exfalso; rw [isAuthenticated, hu, ha] at hauth; simp at hauth
    exact ⟨key, by rw [key], by rw [key]⟩
  · intro hauth hinst
    have key : launchGame st versionId modLoader serverAddress rand launchOk pid now sep
        = (.error ("Minecraft " ++ versionId ++ " is not installed"), st) := by
      unfold launchGame
      cases hu : st.currentUser <;> cases ha : st.authType
      · exfalso; rw [isAuthenticated, hu, ha] at hauth; simp at hauth
      · exfalso; rw [isAuthenticated, hu, ha] at hauth; simp at hauth
      · exfalso; rw [isAuthenticated, hu, ha] at hauth; simp at hauth
      · simp [hinst]
    exact ⟨key, by rw [key], by rw [key]⟩

/-- C9 (witness): with no authenticated user the launch throws the
authentication error and leaves the state unchanged; with a user but no
installed version it throws the not-installed error and leaves the state
unchanged. -/
theorem launchGame_guards_witness :
    (isAuthenticated stNoAuth = false
      ∧ launchGame stNoAuth ("1.20.4") none none (fun _ => 0) true 1234 0 (":")
          = (.error ("User not authenticated"), stNoAuth))
    ∧ (isAuthenticated stNotInstalled = true
      ∧ isVersionInstalled stNotInstalled ("1.20.4") = false
      ∧ launchGame stNotInstalled ("1.20.4") none none (fun _ => 0) true 1234 0 (":")
          = (.error ("Minecraft " ++ "1.20.4" ++ " is not installed"), stNotInstalled)) :=
  ⟨⟨by decide,
    ((launchGame_guards stNoAuth ("1.20.4") none none (fun _ => 0) true 1234 0 (":")).1
      (by decide)).1⟩,
   ⟨by decide, by decide,
    ((launchGame_guards stNotInstalled ("1.20.4") none none (fun _ => 0) true 1234 0 (":")).2
      (by decide) (by decide)).1⟩⟩

end CraftLauncher
